import Mathlib

/-!
Shallow embedding of the eggd_optimised_filtering variant-flagging pipeline.

The embedding covers:
* the flagging engine `add_filtering_flag` of `utils/vcf.py` (per-gene
  grouping is given as input; the engine evaluates the AF gate, the
  zygosity counts and assigns a flag to every record),
* the MOI-term simplification `simplify_MOI_terms` of
  `resources/utils/panels.py`,
* the clinical-indication string check `check_panel_string` of
  `resources/add_optimised_filtering.py` (Python `re.sub` of the pattern
  `_HGNC:[0-9]+(;)?` is embedded as a character-list scanner),
* the genepanels table parser `parse_genepanels` of
  `resources/utils/panels.py` (the dict-of-sets accumulation is embedded
  as an association list whose values are duplicate-free lists).

Population allele frequencies are embedded as rationals, records as a
structure carrying exactly the fields the engine reads, and Python
truthiness tests (`if gene_moi:`, `if af_threshold:`) are translated
explicitly (None, the empty string and the number 0 are falsy).
-/

namespace OptimisedFiltering

/-- Flag values the engine writes into the `MOI` INFO field. -/
inductive Flag
  | PRIORITISED
  | NOT_PRIORITISED
  | NOT_ASSESSED
deriving DecidableEq, Repr

/-- Values written into the `Filter_reason` INFO field. -/
inductive Reason
  | gnomAD_AF_exceeds_MOI_threshold
  | Gene_info_not_available
  | BCFtools_filtered
  | Zygosity_count_does_not_fit_MOI
deriving DecidableEq, Repr

/-- Entry of the filtering-rules dictionary for one simplified MOI code,
holding the keys af, HET and HOM.  The af value may be absent (the
Python `.get` of the af key returns None). -/
structure Rule where
  af : Option ℚ
  HET : Nat
  HOM : Nat
deriving DecidableEq, Repr

/-- Entry of the per-gene panel dictionary: `panel_dict[gene]` is a dict
from which the engine reads the mode_of_inheritance key with `.get`,
which may be absent (None). -/
structure GeneInfo where
  mode_of_inheritance : Option String
deriving DecidableEq, Repr

/-- One variant record, restricted to the fields `add_filtering_flag`
reads or writes: the first FILTER key (`variant.filter.keys()[0]`), the
first entries of `CSQ_gnomADe_AF` and `CSQ_gnomADg_AF` (None when the
annotation is null), the sample genotype tuple `GT` (each allele index
may be None for a missing allele), and the two INFO fields the engine
assigns. -/
structure Variant where
  filterStatus : String
  gnomADe_AF : Option ℚ
  gnomADg_AF : Option ℚ
  GT : List (Option Nat)
  flag : Option Flag
  reason : Option Reason
deriving DecidableEq, Repr

/-- Result of the gene-information lookup that opens the per-gene loop of
`add_filtering_flag`: when the gene is in `panel_dict`, its
`mode_of_inheritance` is truthy, the MOI is a key of `rules` and
the af value of the rules entry for the MOI is truthy, the gate carries
that AF threshold together with the HET and HOM values of the same
rules entry (read later by the zygosity step). -/
structure Gate where
  af : ℚ
  HET : Nat
  HOM : Nat
deriving DecidableEq, Repr

/-- Lookup chain `gene_present` / `gene_moi` / `af_threshold` of
`add_filtering_flag`, with Python truthiness made explicit: a missing
key, a None or empty MOI string, and a missing or zero `af` all leave
the gate unavailable. -/
def geneGate (panel_dict : String → Option GeneInfo) (rules : String → Option Rule)
    (gene : String) : Option Gate :=
  match panel_dict gene with
  | none => none
  | some info =>
    match info.mode_of_inheritance with
    | none => none
    | some moi =>
      if moi = "" then none
      else
        match rules moi with
        | none => none
        | some r =>
          match r.af with
          | none => none
          | some a => if a = 0 then none else some ⟨a, r.HET, r.HOM⟩

/-- AF test of the engine: both gnomAD exome and genome AF (a null value
is replaced by 0.0 first) must be strictly below the threshold. -/
def afPass (af : ℚ) (v : Variant) : Bool :=
  decide (v.gnomADe_AF.getD 0 < af) && decide (v.gnomADg_AF.getD 0 < af)

/-- Flag and reason INFO fields of a record after the first pass of the
per-variant loop: a record whose FILTER is not PASS is flagged
`NOT_PRIORITISED`/`BCFtools_filtered`; with the gate unavailable a PASS
record is flagged `NOT_ASSESSED`/`Gene_info_not_available`; with the
gate available a PASS record failing the AF test is flagged
`NOT_PRIORITISED`/`gnomAD_AF_exceeds_MOI_threshold`, and one passing it
is left untouched (it is appended to `variants_passing_af_filter`
instead). -/
def phase1Pair (gate : Option Gate) (v : Variant) : Option Flag × Option Reason :=
  if v.filterStatus = "PASS" then
    match gate with
    | some g =>
      if afPass g.af v then (v.flag, v.reason)
      else (some Flag.NOT_PRIORITISED, some Reason.gnomAD_AF_exceeds_MOI_threshold)
    | none => (some Flag.NOT_ASSESSED, some Reason.Gene_info_not_available)
  else (some Flag.NOT_PRIORITISED, some Reason.BCFtools_filtered)

/-- State of one record after the first pass of the per-variant loop. -/
def phase1Flag (gate : Option Gate) (v : Variant) : Variant :=
  { v with
      flag := (phase1Pair gate v).1,
      reason := (phase1Pair gate v).2 }

/-- Membership test for `variants_passing_af_filter`: FILTER is PASS, the
gate is available and the AF test passes. -/
def isSurvivor (gate : Option Gate) (v : Variant) : Bool :=
  decide (v.filterStatus = "PASS") &&
    (match gate with
     | some g => afPass g.af v
     | none => false)

/-- Genotype count used by the zygosity step: the number of entries of the
`GT` tuple equal to the allele index 1 (`genotype.count(1)`). -/
def gtCount (v : Variant) : Nat :=
  v.GT.count (some 1)

/-- Record counted as heterozygous by the engine: `genotype.count(1) == 1`. -/
def isHet (v : Variant) : Bool :=
  gtCount v == 1

/-- Record counted as homozygous by the engine: `genotype.count(1) == 2`. -/
def isHom (v : Variant) : Bool :=
  gtCount v == 2

/-- Zygosity decision of the group: None when the gate is unavailable or
no variant passed the AF filter (the whole zygosity step is inside
`if variants_passing_af_filter:`); otherwise whether
`het_count >= hets_needed or hom_count >= homs_needed`, where the counts
are over the surviving variants (`Counter(gt_counts).get(1, 0)` equals
the number of survivors with `genotype.count(1) == 1`, and likewise for
2). -/
def groupDecision (gate : Option Gate) (variant_list : List Variant) : Option Bool :=
  match gate with
  | none => none
  | some g =>
    let survivors := variant_list.filter (isSurvivor (some g))
    if survivors.isEmpty then none
    else
      let het_count := survivors.countP isHet
      let hom_count := survivors.countP isHom
      some (decide (g.HET ≤ het_count) || decide (g.HOM ≤ hom_count))

/-- Flag and reason INFO fields of one record after both passes: a
survivor receives `PRIORITISED` (its reason field is left untouched) or
`NOT_PRIORITISED`/`Zygosity_count_does_not_fit_MOI` according to the
group decision; every other record keeps its first-pass fields. -/
def flagPair (gate : Option Gate) (dec : Option Bool) (v : Variant) :
    Option Flag × Option Reason :=
  if isSurvivor gate v then
    match dec with
    | some true => (some Flag.PRIORITISED, v.reason)
    | some false =>
      (some Flag.NOT_PRIORITISED, some Reason.Zygosity_count_does_not_fit_MOI)
    | none => (v.flag, v.reason)
  else phase1Pair gate v

/-- Final state of one record after both passes. -/
def assignFlag (gate : Option Gate) (dec : Option Bool) (v : Variant) : Variant :=
  { v with
      flag := (flagPair gate dec v).1,
      reason := (flagPair gate dec v).2 }

/-- Flagging of one gene group (the body of the `for gene, variant_list
in gene_variant_dict.items():` loop of `add_filtering_flag`): every
record of the group ends up in the state given by `assignFlag` under
the gate and zygosity decision of the group. -/
def flagGroup (panel_dict : String → Option GeneInfo) (rules : String → Option Rule)
    (gene : String) (variant_list : List Variant) : List Variant :=
  let gate := geneGate panel_dict rules gene
  variant_list.map (assignFlag gate (groupDecision gate variant_list))

/-- Flagging engine over the grouped records (`add_filtering_flag` of
`utils/vcf.py`, with the gene grouping of the record stream given as
input): each gene group is flagged independently. -/
def add_filtering_flag (panel_dict : String → Option GeneInfo)
    (rules : String → Option Rule)
    (gene_variant_dict : List (String × List Variant)) :
    List (String × List Variant) :=
  gene_variant_dict.map (fun p => (p.1, flagGroup panel_dict rules p.1 p.2))

/-- Phrase tested (as an anchored search, i.e. the text must begin with
it) for the XLR category by `simplify_MOI_terms`. -/
def xlrPhrase : String := "X-LINKED: hemizygous mutation in males, biallelic"

/-- Phrase tested (as an anchored search) for the XLD category by
`simplify_MOI_terms`. -/
def xldPhrase : String := "X-LINKED: hemizygous mutation in males, monoallelic"

/-- Normalisation of one raw MOI text by `simplify_MOI_terms` of
`resources/utils/panels.py`.  Each `re.search` there is anchored with
`^` and its pattern contains no metacharacters, so it is a test that the
text starts with the given phrase; a missing (None) or empty MOI is
falsy and yields NONE, as does any unrecognised text. -/
def simplifyMOI (moi : Option String) : String :=
  match moi with
  | none => "NONE"
  | some m =>
    if m = "" then "NONE"
    else if m.startsWith "BIALLELIC" then "AR"
    else if m.startsWith "MONOALLELIC" then "AD"
    else if m.startsWith xlrPhrase then "XLR"
    else if m.startsWith xldPhrase then "XLD"
    else if m.startsWith "BOTH" then "AD/AR"
    else if m.startsWith "MITOCHONDRIAL" then "MITOCHONDRIAL"
    else if m.startsWith "Other" then "OTHER"
    else if m.startsWith "Unknown" then "UNKNOWN"
    else "NONE"

/-- Embedding of `simplify_MOI_terms`: the input dict (gene or region
name paired with the raw `mode_of_inheritance` value of its info dict)
is traversed and every entry receives its simplified MOI.  The Python
dict has unique keys; it is embedded as an association list. -/
def simplify_MOI_terms (panel_dict : List (String × Option String)) :
    List (String × String) :=
  panel_dict.map (fun p => (p.1, simplifyMOI p.2))

/-- Normalisation table as the specification states it, used to compare
`simplify_MOI_terms` against the spec sentence: free text beginning with
BIALLELIC maps to AR, beginning with MONOALLELIC to AD, the exact
X-linked-recessive phrasing to XLR, the exact X-linked-dominant phrasing
to XLD, beginning with BOTH to AD/AR, beginning with MITOCHONDRIAL to
MITOCHONDRIAL, beginning with Other to OTHER, beginning with Unknown to
UNKNOWN, and absent or unrecognised text to NONE. -/
def moiSpec (moi : Option String) : String :=
  match moi with
  | none => "NONE"
  | some m =>
    if m = "" then "NONE"
    else if m.startsWith "BIALLELIC" then "AR"
    else if m.startsWith "MONOALLELIC" then "AD"
    else if m.startsWith "X-LINKED: hemizygous mutation in males, biallelic" then "XLR"
    else if m.startsWith "X-LINKED: hemizygous mutation in males, monoallelic" then "XLD"
    else if m.startsWith "BOTH" then "AD/AR"
    else if m.startsWith "MITOCHONDRIAL" then "MITOCHONDRIAL"
    else if m.startsWith "Other" then "OTHER"
    else if m.startsWith "Unknown" then "UNKNOWN"
    else "NONE"

/-- Tail of the character stream after one match of the pattern
`_HGNC:[0-9]+(;)?` has consumed the maximal run of digits and, when
present, one following semicolon. -/
def hgncTail (rest : List Char) : List Char :=
  match rest.dropWhile Char.isDigit with
  | ';' :: r => r
  | r => r

/-- Fuelled scanner embedding the Python re.sub that replaces the
pattern `_HGNC:[0-9]+(;)?` by the empty string: at
each position a match of the pattern (the literal `_HGNC:` followed by
at least one digit and an optional semicolon) is removed, otherwise one
character is kept and scanning continues.  Every step consumes at least
one character, so fuel equal to the length of the list (supplied by
`subHGNC`) is never exhausted. -/
def subHGNCFuel : Nat → List Char → List Char
  | _, [] => []
  | 0, l => l
  | fuel + 1, '_' :: 'H' :: 'G' :: 'N' :: 'C' :: ':' :: rest =>
    if (rest.takeWhile Char.isDigit).isEmpty then
      '_' :: subHGNCFuel fuel ('H' :: 'G' :: 'N' :: 'C' :: ':' :: rest)
    else subHGNCFuel fuel (hgncTail rest)
  | fuel + 1, c :: cs => c :: subHGNCFuel fuel cs

/-- Removal of every `_HGNC:<digits>` token (each with its optional
trailing semicolon) from the character list. -/
def subHGNC (l : List Char) : List Char :=
  subHGNCFuel l.length l

/-- Python rstrip with the semicolon: remove every trailing semicolon. -/
def rstripSemicolon (l : List Char) : List Char :=
  (l.reverse.dropWhile (fun c => c == ';')).reverse

/-- Embedding of `check_panel_string` of
`resources/add_optimised_filtering.py`: gene-identifier tokens are
stripped, trailing semicolons removed, and the result must contain no
semicolon any more (otherwise the assertion fires, naming the remaining
panels); the stripped string is returned. -/
def check_panel_string (panel_string : String) : Except String String :=
  let panels_from_string :=
    String.mk (rstripSemicolon (subHGNC panel_string.data))
  if panels_from_string.data.count ';' = 0 then Except.ok panels_from_string
  else Except.error ("More than one panel given: " ++ panels_from_string)

/-- Row of the genepanels TSV, already split at its tabs: clinical
indication, panel name, gene symbol, panel ID (the tab-split of one
line done by `parse_genepanels`). -/
structure GenepanelsRow where
  clin_ind : String
  panel : String
  gene : String
  panel_id : String
deriving DecidableEq, Repr

/-- Python strip with the newline character applied to the panel-ID
column: newlines are removed from both ends. -/
def stripNewline (s : String) : String :=
  String.mk
    (((s.data.dropWhile (fun c => c == '\n')).reverse.dropWhile
      (fun c => c == '\n')).reverse)

/-- Set insertion for the per-indication panel-ID set: a value already
present is not added again. -/
def insertVal (vs : List String) (v : String) : List String :=
  if v ∈ vs then vs else vs ++ [v]

/-- One `panel_data.setdefault(clin_ind, set()).add(panel_id)` step on
the association-list embedding of the dict of sets: the first entry with
the key is updated, a missing key is appended with a singleton set. -/
def addPanelId (acc : List (String × List String)) (k v : String) :
    List (String × List String) :=
  match acc with
  | [] => [(k, [v])]
  | (k1, vs) :: rest =>
    if k1 = k then (k1, insertVal vs v) :: rest
    else (k1, vs) :: addPanelId rest k v

/-- Accumulation loop of `parse_genepanels`: every row adds its
(newline-stripped) panel ID to the set of its clinical indication. -/
def buildPanelData (rows : List GenepanelsRow) : List (String × List String) :=
  rows.foldl (fun acc r => addPanelId acc r.clin_ind (stripNewline r.panel_id)) []

/-- Embedding of `parse_genepanels` of `resources/utils/panels.py` on the
already-line-split table: if any clinical indication ends with more than
one distinct panel ID the assertion fires, otherwise the dict is
returned. -/
def parse_genepanels (rows : List GenepanelsRow) :
    Except String (List (String × List String)) :=
  let panel_data := buildPanelData rows
  let duplicate_ids := panel_data.filter (fun p => 1 < p.2.length)
  if duplicate_ids.isEmpty then Except.ok panel_data
  else Except.error "Multiple panel IDs found for clinical indications"

/-- Value list stored for a key in the association-list embedding of the
genepanels dict (the empty list when the key is absent); analysis helper
for `parse_genepanels`. -/
def getVals (acc : List (String × List String)) (k : String) : List String :=
  match acc with
  | [] => []
  | (k1, vs) :: rest => if k1 = k then vs else getVals rest k

/-- Example rule set: one heterozygous variant suffices for AD, two
heterozygous or one homozygous for AR, both with AF ceiling 1/100. -/
def rulesEx : String → Option Rule := fun m =>
  if m = "AD" then some ⟨some (mkRat 1 100), 1, 1⟩
  else if m = "AR" then some ⟨some (mkRat 1 100), 2, 1⟩
  else none

/-- Example rule set in which zero heterozygous and zero homozygous
variants already satisfy the AD rule. -/
def rulesZero : String → Option Rule := fun m =>
  if m = "AD" then some ⟨some (mkRat 1 100), 0, 0⟩ else none

/-- Example panel carrying GENE1 with simplified MOI AR. -/
def panelAR : String → Option GeneInfo := fun g =>
  if g = "GENE1" then some ⟨some "AR"⟩ else none

/-- Example panel carrying GENE2 with simplified MOI AD. -/
def panelAD : String → Option GeneInfo := fun g =>
  if g = "GENE2" then some ⟨some "AD"⟩ else none

/-- Example panel with no genes. -/
def panelEmpty : String → Option GeneInfo := fun _ => none

/-- Example record: PASS, heterozygous 0/1, with the given exome AF and a
null genome AF. -/
def vHet (q : ℚ) : Variant := ⟨"PASS", some q, none, [some 0, some 1], none, none⟩

/-- Example record removed by the upstream bcftools filter (FILTER is
EXCLUDE), heterozygous 0/1, with null AFs. -/
def vEx : Variant := ⟨"EXCLUDE", none, none, [some 0, some 1], none, none⟩

/-- Example record: PASS, genotype 0/2 (one non-reference allele whose
index is 2), with null AFs. -/
def v02 : Variant := ⟨"PASS", none, none, [some 0, some 2], none, none⟩

/-- Example record: PASS, heterozygous 0/1, with exome AF 1/2 (far above
the example ceilings). -/
def vHigh : Variant := ⟨"PASS", some (mkRat 1 2), none, [some 0, some 1], none, none⟩

/-! ### Field-preservation and idempotence of the per-record flagging -/

theorem assignFlag_filterStatus (gate : Option Gate) (dec : Option Bool) (v : Variant) :
    (assignFlag gate dec v).filterStatus = v.filterStatus := rfl

theorem isSurvivor_assignFlag (gate gate2 : Option Gate) (dec : Option Bool) (v : Variant) :
    isSurvivor gate2 (assignFlag gate dec v) = isSurvivor gate2 v := rfl

theorem afPass_assignFlag (af : ℚ) (gate : Option Gate) (dec : Option Bool) (v : Variant) :
    afPass af (assignFlag gate dec v) = afPass af v := rfl

theorem gtCount_assignFlag (gate : Option Gate) (dec : Option Bool) (v : Variant) :
    gtCount (assignFlag gate dec v) = gtCount v := rfl

theorem isHet_assignFlag (gate : Option Gate) (dec : Option Bool) (v : Variant) :
    isHet (assignFlag gate dec v) = isHet v := rfl

theorem isHom_assignFlag (gate : Option Gate) (dec : Option Bool) (v : Variant) :
    isHom (assignFlag gate dec v) = isHom v := rfl

theorem flagPair_assignFlag (gate : Option Gate) (dec : Option Bool) (v : Variant) :
    flagPair gate dec (assignFlag gate dec v) = flagPair gate dec v := by
  by_cases hs : isSurvivor gate v = true
  · rcases dec with _ | b
    · have hf : (assignFlag gate none v).flag = v.flag := by
        simp [assignFlag, flagPair, hs]
      have hr : (assignFlag gate none v).reason = v.reason := by
        simp [assignFlag, flagPair, hs]
      simp [flagPair, isSurvivor_assignFlag, hs, hf, hr]
    · rcases b
      · simp [flagPair, isSurvivor_assignFlag, hs]
      · have hr : (assignFlag gate (some true) v).reason = v.reason := by
          simp [assignFlag, flagPair, hs]
        simp [flagPair, isSurvivor_assignFlag, hs, hr]
  · have hs' : isSurvivor gate v = false := by simpa using hs
    simp only [flagPair, isSurvivor_assignFlag, hs', Bool.false_eq_true, if_false]
    by_cases hp : v.filterStatus = "PASS"
    · rcases gate with _ | g
      · simp [phase1Pair, hp, assignFlag_filterStatus]
      · by_cases ha : afPass g.af v = true
        · exact absurd (show isSurvivor (some g) v = true by simp [isSurvivor, hp, ha])
            (by simpa using hs')
        · have ha' : afPass g.af v = false := by simpa using ha
          simp [phase1Pair, hp, assignFlag_filterStatus, afPass_assignFlag, ha']
    · simp [phase1Pair, hp, assignFlag_filterStatus]

theorem assignFlag_idem (gate : Option Gate) (dec : Option Bool) (v : Variant) :
    assignFlag gate dec (assignFlag gate dec v) = assignFlag gate dec v := by
  show ({ assignFlag gate dec v with
      flag := (flagPair gate dec (assignFlag gate dec v)).1,
      reason := (flagPair gate dec (assignFlag gate dec v)).2 } : Variant) =
    assignFlag gate dec v
  rw [flagPair_assignFlag]
  rfl

theorem groupDecision_map_assignFlag (gate : Option Gate) (dec : Option Bool)
    (vs : List Variant) :
    groupDecision gate (vs.map (assignFlag gate dec)) = groupDecision gate vs := by
  rcases gate with _ | g
  · rfl
  · simp only [groupDecision, List.filter_map, List.countP_map]
    have hsurv : (isSurvivor (some g) ∘ assignFlag (some g) dec) = isSurvivor (some g) := by
      funext v; exact isSurvivor_assignFlag _ _ _ _
    have hhet : (isHet ∘ assignFlag (some g) dec) = isHet := by
      funext v; exact isHet_assignFlag _ _ _
    have hhom : (isHom ∘ assignFlag (some g) dec) = isHom := by
      funext v; exact isHom_assignFlag _ _ _
    rw [hsurv]
    simp [hhet, hhom]

theorem flagGroup_idem (panel_dict : String → Option GeneInfo)
    (rules : String → Option Rule) (gene : String) (vs : List Variant) :
    flagGroup panel_dict rules gene (flagGroup panel_dict rules gene vs) =
      flagGroup panel_dict rules gene vs := by
  show (flagGroup panel_dict rules gene vs).map
      (assignFlag (geneGate panel_dict rules gene)
        (groupDecision (geneGate panel_dict rules gene)
          (flagGroup panel_dict rules gene vs))) =
    flagGroup panel_dict rules gene vs
  show (vs.map (assignFlag (geneGate panel_dict rules gene)
        (groupDecision (geneGate panel_dict rules gene) vs))).map
      (assignFlag (geneGate panel_dict rules gene)
        (groupDecision (geneGate panel_dict rules gene)
          (vs.map (assignFlag (geneGate panel_dict rules gene)
            (groupDecision (geneGate panel_dict rules gene) vs))))) =
    vs.map (assignFlag (geneGate panel_dict rules gene)
      (groupDecision (geneGate panel_dict rules gene) vs))
  rw [groupDecision_map_assignFlag, List.map_map]
  exact List.map_congr_left (fun v _ => assignFlag_idem _ _ v)

/-- Claim C8: running the flagging engine a second time on the same
grouped input (without re-grouping) yields exactly the same record
states: per group the gate, the survivor set and the zygosity decision
are functions of fields the engine never writes, and the second pass
rewrites the same flag and reason into every record. -/
theorem add_filtering_flag_idempotent (panel_dict : String → Option GeneInfo)
    (rules : String → Option Rule)
    (gene_variant_dict : List (String × List Variant)) :
    add_filtering_flag panel_dict rules
        (add_filtering_flag panel_dict rules gene_variant_dict) =
      add_filtering_flag panel_dict rules gene_variant_dict := by
  unfold add_filtering_flag
  rw [List.map_map]
  exact List.map_congr_left (fun p _ => by
    simp [Function.comp, flagGroup_idem])

/-! ### Per-claim theorems for the flagging engine -/

theorem zip_map_snd {α β : Type _} (f : α → β) (l : List α) :
    ∀ p ∈ l.zip (l.map f), p.2 = f p.1 := by
  induction l with
  | nil => simp
  | cons a t ih =>
    intro p hp
    simp only [List.map_cons, List.zip_cons_cons, List.mem_cons] at hp
    rcases hp with rfl | hp
    · rfl
    · exact ih p hp

theorem groupDecision_append_cons (gate : Option Gate) (v : Variant)
    (hv : isSurvivor gate v = false) (vs₁ vs₂ : List Variant) :
    groupDecision gate (vs₁ ++ v :: vs₂) = groupDecision gate (vs₁ ++ vs₂) := by
  rcases gate with _ | g
  · rfl
  · have hv' : isSurvivor (some g) v = false := hv
    simp [groupDecision, List.filter_append, List.filter_cons, hv']

/-- Claim C1 (amended): when the gene is absent from the resolved panel
map, or its MOI is missing or empty, or the MOI has no AF threshold
entry in the rule set, zygosity counting is skipped for the group and
every variant whose FILTER status is PASS is flagged NOT_ASSESSED with
the gene-info-not-available reason; a variant whose FILTER status is not
PASS is instead flagged NOT_PRIORITISED with the BCFtools_filtered
reason, and no variant of the group is ever PRIORITISED. -/
theorem gate_unavailable_not_assessed (panel_dict : String → Option GeneInfo)
    (rules : String → Option Rule) (gene : String) (vs : List Variant)
    (h : panel_dict gene = none ∨
      (∃ gi, panel_dict gene = some gi ∧
        (gi.mode_of_inheritance = none ∨ gi.mode_of_inheritance = some "")) ∨
      (∃ gi m, panel_dict gene = some gi ∧ gi.mode_of_inheritance = some m ∧
        (rules m = none ∨ ∃ r, rules m = some r ∧ r.af = none))) :
    groupDecision (geneGate panel_dict rules gene) vs = none ∧
    ∀ p ∈ vs.zip (flagGroup panel_dict rules gene vs),
      (p.1.filterStatus = "PASS" →
        p.2.flag = some Flag.NOT_ASSESSED ∧
        p.2.reason = some Reason.Gene_info_not_available) ∧
      (p.1.filterStatus ≠ "PASS" →
        p.2.flag = some Flag.NOT_PRIORITISED ∧
        p.2.reason = some Reason.BCFtools_filtered) ∧
      p.2.flag ≠ some Flag.PRIORITISED := by
  have hgate : geneGate panel_dict rules gene = none := by
    rcases h with h | ⟨gi, hgi, hmoi⟩ | ⟨gi, m, hgi, hm, hr⟩
    · simp [geneGate, h]
    · rcases hmoi with hmoi | hmoi <;> simp [geneGate, hgi, hmoi]
    · rcases hr with hr | ⟨r, hr, haf⟩
      · by_cases hm0 : m = "" <;> simp [geneGate, hgi, hm, hm0, hr]
      · by_cases hm0 : m = "" <;> simp [geneGate, hgi, hm, hm0, hr, haf]
  have hfg : flagGroup panel_dict rules gene vs = vs.map (assignFlag none none) := by
    unfold flagGroup
    rw [hgate]
    rfl
  refine ⟨by rw [hgate]; rfl, ?_⟩
  intro p hp
  rw [hfg] at hp
  have h2 := zip_map_snd (assignFlag none none) vs p hp
  refine ⟨?_, ?_, ?_⟩
  · intro hpass
    rw [h2]
    simp [assignFlag, flagPair, isSurvivor, phase1Pair, hpass]
  · intro hpass
    rw [h2]
    simp [assignFlag, flagPair, isSurvivor, phase1Pair, hpass]
  · rw [h2]
    by_cases hpass : p.1.filterStatus = "PASS" <;>
      simp [assignFlag, flagPair, isSurvivor, phase1Pair, hpass]

/-- Claim C2 (amended): when the gate (gene, MOI, AF threshold) is
available, a variant with FILTER status PASS survives the AF filter
exactly when both its gnomAD exome and genome AF (null treated as 0.0)
are strictly below the threshold; a PASS variant failing the test is
flagged NOT_PRIORITISED with the AF-exceeds-threshold reason, and
removing it from the group leaves the zygosity decision unchanged. -/
theorem af_gate_survival (panel_dict : String → Option GeneInfo)
    (rules : String → Option Rule) (gene : String) (g : Gate) (v : Variant)
    (vs₁ vs₂ : List Variant)
    (hgate : geneGate panel_dict rules gene = some g)
    (hpass : v.filterStatus = "PASS") :
    (isSurvivor (some g) v =
      (decide (v.gnomADe_AF.getD 0 < g.af) && decide (v.gnomADg_AF.getD 0 < g.af))) ∧
    (¬ (v.gnomADe_AF.getD 0 < g.af ∧ v.gnomADg_AF.getD 0 < g.af) →
      (∀ dec, (assignFlag (some g) dec v).flag = some Flag.NOT_PRIORITISED ∧
        (assignFlag (some g) dec v).reason =
          some Reason.gnomAD_AF_exceeds_MOI_threshold) ∧
      groupDecision (some g) (vs₁ ++ v :: vs₂) = groupDecision (some g) (vs₁ ++ vs₂) ∧
      flagGroup panel_dict rules gene (vs₁ ++ v :: vs₂) =
        (vs₁ ++ v :: vs₂).map
          (assignFlag (some g) (groupDecision (some g) (vs₁ ++ vs₂)))) := by
  constructor
  · simp [isSurvivor, afPass, hpass]
  · intro hfail
    have haf : afPass g.af v = false := by
      simp only [afPass, Bool.and_eq_false_iff, decide_eq_false_iff_not]
      tauto
    have hsurv : isSurvivor (some g) v = false := by
      simp [isSurvivor, hpass, haf]
    refine ⟨fun dec => ?_, groupDecision_append_cons _ _ hsurv _ _, ?_⟩
    · constructor <;> simp [assignFlag, flagPair, hsurv, phase1Pair, hpass, haf]
    · unfold flagGroup
      rw [hgate]
      dsimp only
      rw [groupDecision_append_cons _ _ hsurv]

/-- Claim C3: for a group with at least one variant surviving the AF
filter, every surviving variant is flagged PRIORITISED when the
heterozygous count reaches hets_needed or the homozygous count reaches
homs_needed, and otherwise every surviving variant is flagged
NOT_PRIORITISED with the zygosity-count reason. -/
theorem zygosity_flag_assignment (panel_dict : String → Option GeneInfo)
    (rules : String → Option Rule) (gene : String) (g : Gate) (vs : List Variant)
    (hgate : geneGate panel_dict rules gene = some g)
    (hne : vs.filter (isSurvivor (some g)) ≠ []) :
    ∀ p ∈ vs.zip (flagGroup panel_dict rules gene vs),
      isSurvivor (some g) p.1 = true →
        (if g.HET ≤ (vs.filter (isSurvivor (some g))).countP isHet ∨
            g.HOM ≤ (vs.filter (isSurvivor (some g))).countP isHom
         then p.2.flag = some Flag.PRIORITISED ∧ p.2.reason = p.1.reason
         else p.2.flag = some Flag.NOT_PRIORITISED ∧
           p.2.reason = some Reason.Zygosity_count_does_not_fit_MOI) := by
  intro p hp hs
  have hdec : groupDecision (some g) vs =
      some (decide (g.HET ≤ (vs.filter (isSurvivor (some g))).countP isHet) ||
        decide (g.HOM ≤ (vs.filter (isSurvivor (some g))).countP isHom)) := by
    simp only [groupDecision]
    rw [if_neg (by simpa [List.isEmpty_iff] using hne)]
  have hfg : flagGroup panel_dict rules gene vs =
      vs.map (assignFlag (some g) (groupDecision (some g) vs)) := by
    unfold flagGroup
    rw [hgate]
  rw [hfg] at hp
  have h2 := zip_map_snd _ vs p hp
  by_cases hcond : g.HET ≤ (vs.filter (isSurvivor (some g))).countP isHet ∨
      g.HOM ≤ (vs.filter (isSurvivor (some g))).countP isHom
  · rw [if_pos hcond, h2, hdec]
    have hb : (decide (g.HET ≤ (vs.filter (isSurvivor (some g))).countP isHet) ||
        decide (g.HOM ≤ (vs.filter (isSurvivor (some g))).countP isHom)) = true := by
      simpa using hcond
    rw [hb]
    constructor <;> simp [assignFlag, flagPair, hs]
  · rw [if_neg hcond, h2, hdec]
    have hb : (decide (g.HET ≤ (vs.filter (isSurvivor (some g))).countP isHet) ||
        decide (g.HOM ≤ (vs.filter (isSurvivor (some g))).countP isHom)) = false := by
      push_neg at hcond
      simp [hcond.1, hcond.2]
    rw [hb]
    constructor <;> simp [assignFlag, flagPair, hs]

/-- Claim C4 (amended): a surviving diploid genotype is counted as
heterozygous exactly when exactly one of its two allele entries is the
allele index 1, as homozygous exactly when both entries are the allele
index 1, and never as both; every other genotype shape (including
homozygous reference and genotypes whose non-reference alleles have
index at least 2) contributes to neither count and is not an error. -/
theorem genotype_classification (v : Variant) (a b : Option Nat)
    (h : v.GT = [a, b]) :
    (isHet v = true ↔ ((a = some 1 ∧ b ≠ some 1) ∨ (a ≠ some 1 ∧ b = some 1))) ∧
    (isHom v = true ↔ (a = some 1 ∧ b = some 1)) ∧
    ¬ (isHet v = true ∧ isHom v = true) := by
  by_cases ha : a = some 1 <;> by_cases hb : b = some 1 <;>
    simp [isHet, isHom, gtCount, h, ha, hb, List.count_cons]

/-- Claim C7: a gene group in which no variant survives the AF filter
has no zygosity decision (both counts are empty) and none of its
variants is ever flagged PRIORITISED, for every rule set, including one
whose required counts are zero. -/
theorem no_survivors_never_prioritised (panel_dict : String → Option GeneInfo)
    (rules : String → Option Rule) (gene : String) (vs : List Variant)
    (h : vs.filter (isSurvivor (geneGate panel_dict rules gene)) = []) :
    groupDecision (geneGate panel_dict rules gene) vs = none ∧
    ∀ v ∈ flagGroup panel_dict rules gene vs, v.flag ≠ some Flag.PRIORITISED := by
  have hdec : groupDecision (geneGate panel_dict rules gene) vs = none := by
    cases hgate : geneGate panel_dict rules gene with
    | none => rfl
    | some g =>
      rw [hgate] at h
      simp [groupDecision, h]
  refine ⟨hdec, ?_⟩
  intro w hw
  have hfg : flagGroup panel_dict rules gene vs =
      vs.map (assignFlag (geneGate panel_dict rules gene) none) := by
    unfold flagGroup
    dsimp only
    rw [hdec]
  rw [hfg] at hw
  obtain ⟨v, hv, rfl⟩ := List.mem_map.mp hw
  have hs : isSurvivor (geneGate panel_dict rules gene) v = false := by
    simpa using (List.filter_eq_nil_iff.mp h) v hv
  by_cases hpass : v.filterStatus = "PASS"
  · cases hgate : geneGate panel_dict rules gene with
    | none => simp [assignFlag, flagPair, hgate, isSurvivor, phase1Pair, hpass]
    | some g =>
      rw [hgate] at hs
      have haf : afPass g.af v = false := by
        by_cases haf : afPass g.af v = true
        · exfalso
          rw [show isSurvivor (some g) v = true by simp [isSurvivor, hpass, haf]] at hs
          exact absurd hs (by simp)
        · simpa using haf
      simp [assignFlag, flagPair, hgate, hs, phase1Pair, hpass, haf]
  · simp [assignFlag, flagPair, hs, phase1Pair, hpass]

/-- Claim C10: a variant whose FILTER status is not PASS is flagged
NOT_PRIORITISED with the BCFtools_filtered reason under every panel and
rule set (in particular when gene information is unavailable), it never
survives the AF filter, and removing it from its group changes neither
the zygosity decision nor the flagging of the rest of the group. -/
theorem bcftools_filtered_short_circuit (panel_dict : String → Option GeneInfo)
    (rules : String → Option Rule) (gene : String) (v : Variant)
    (vs₁ vs₂ : List Variant)
    (hv : v.filterStatus ≠ "PASS") :
    (∀ dec, (assignFlag (geneGate panel_dict rules gene) dec v).flag =
        some Flag.NOT_PRIORITISED ∧
      (assignFlag (geneGate panel_dict rules gene) dec v).reason =
        some Reason.BCFtools_filtered) ∧
    isSurvivor (geneGate panel_dict rules gene) v = false ∧
    groupDecision (geneGate panel_dict rules gene) (vs₁ ++ v :: vs₂) =
      groupDecision (geneGate panel_dict rules gene) (vs₁ ++ vs₂) ∧
    flagGroup panel_dict rules gene (vs₁ ++ v :: vs₂) =
      (vs₁ ++ v :: vs₂).map
        (assignFlag (geneGate panel_dict rules gene)
          (groupDecision (geneGate panel_dict rules gene) (vs₁ ++ vs₂))) := by
  have hs : isSurvivor (geneGate panel_dict rules gene) v = false := by
    simp [isSurvivor, hv]
  refine ⟨fun dec => ?_, hs, groupDecision_append_cons _ _ hs _ _, ?_⟩
  · constructor <;> simp [assignFlag, flagPair, hs, phase1Pair, hv]
  · unfold flagGroup
    dsimp only
    rw [groupDecision_append_cons _ _ hs]

/-- Claim C1 (counterexample): in a group whose gene is absent from the
panel map, a variant whose FILTER status is not PASS receives
NOT_PRIORITISED with the BCFtools_filtered reason, not the terminal
NOT_ASSESSED flag the claim asserts for every variant of the group. -/
theorem not_assessed_claim_counterexample :
    panelEmpty "GENE1" = none ∧
    (flagGroup panelEmpty rulesEx "GENE1" [vEx]).map Variant.flag =
      [some Flag.NOT_PRIORITISED] ∧
    (flagGroup panelEmpty rulesEx "GENE1" [vEx]).map Variant.reason =
      [some Reason.BCFtools_filtered] ∧
    some Flag.NOT_PRIORITISED ≠ some Flag.NOT_ASSESSED := by
  refine ⟨rfl, rfl, rfl, by decide⟩

/-- Claim C1 (witness): the amended theorem applied to a concrete group
with one PASS and one bcftools-excluded record under an empty panel. -/
theorem gate_unavailable_not_assessed_witness :
    panelEmpty "GENE1" = none ∧
    (groupDecision (geneGate panelEmpty rulesEx "GENE1") [vHet 0, vEx] = none ∧
      ∀ p ∈ ([vHet 0, vEx]).zip (flagGroup panelEmpty rulesEx "GENE1" [vHet 0, vEx]),
        (p.1.filterStatus = "PASS" →
          p.2.flag = some Flag.NOT_ASSESSED ∧
          p.2.reason = some Reason.Gene_info_not_available) ∧
        (p.1.filterStatus ≠ "PASS" →
          p.2.flag = some Flag.NOT_PRIORITISED ∧
          p.2.reason = some Reason.BCFtools_filtered) ∧
        p.2.flag ≠ some Flag.PRIORITISED) :=
  ⟨rfl, gate_unavailable_not_assessed panelEmpty rulesEx "GENE1" [vHet 0, vEx]
    (Or.inl rfl)⟩

/-- Claim C2 (counterexample): a variant with all frequencies below the
threshold does not survive the AF filter when its FILTER status is not
PASS, and such a variant is flagged with the BCFtools_filtered reason
rather than the AF reason, refuting the if-and-only-if as stated. -/
theorem af_survival_claim_counterexample :
    (vEx.gnomADe_AF.getD 0 < mkRat 1 100 ∧ vEx.gnomADg_AF.getD 0 < mkRat 1 100) ∧
    geneGate panelAD rulesEx "GENE2" = some ⟨mkRat 1 100, 1, 1⟩ ∧
    isSurvivor (geneGate panelAD rulesEx "GENE2") vEx = false ∧
    (flagGroup panelAD rulesEx "GENE2" [vEx]).map Variant.reason =
      [some Reason.BCFtools_filtered] ∧
    some Reason.BCFtools_filtered ≠ some Reason.gnomAD_AF_exceeds_MOI_threshold := by
  decide

/-- Claim C2 (witness): the amended theorem applied to a concrete PASS
record whose exome AF of 1/2 exceeds the AD ceiling of 1/100. -/
theorem af_gate_survival_witness :
    geneGate panelAD rulesEx "GENE2" = some ⟨mkRat 1 100, 1, 1⟩ ∧
    vHigh.filterStatus = "PASS" ∧
    ((isSurvivor (some ⟨mkRat 1 100, 1, 1⟩) vHigh =
      (decide (vHigh.gnomADe_AF.getD 0 < (⟨mkRat 1 100, 1, 1⟩ : Gate).af) &&
        decide (vHigh.gnomADg_AF.getD 0 < (⟨mkRat 1 100, 1, 1⟩ : Gate).af))) ∧
    (¬ (vHigh.gnomADe_AF.getD 0 < (⟨mkRat 1 100, 1, 1⟩ : Gate).af ∧
        vHigh.gnomADg_AF.getD 0 < (⟨mkRat 1 100, 1, 1⟩ : Gate).af) →
      (∀ dec, (assignFlag (some ⟨mkRat 1 100, 1, 1⟩) dec vHigh).flag =
          some Flag.NOT_PRIORITISED ∧
        (assignFlag (some ⟨mkRat 1 100, 1, 1⟩) dec vHigh).reason =
          some Reason.gnomAD_AF_exceeds_MOI_threshold) ∧
      groupDecision (some ⟨mkRat 1 100, 1, 1⟩) ([] ++ vHigh :: [vHet 0]) =
        groupDecision (some ⟨mkRat 1 100, 1, 1⟩) ([] ++ [vHet 0]) ∧
      flagGroup panelAD rulesEx "GENE2" ([] ++ vHigh :: [vHet 0]) =
        ([] ++ vHigh :: [vHet 0]).map
          (assignFlag (some ⟨mkRat 1 100, 1, 1⟩)
            (groupDecision (some ⟨mkRat 1 100, 1, 1⟩) ([] ++ [vHet 0]))))) :=
  ⟨rfl, rfl, af_gate_survival panelAD rulesEx "GENE2" ⟨mkRat 1 100, 1, 1⟩ vHigh [] [vHet 0]
    rfl rfl⟩

/-- Claim C3 (witness): the theorem applied to an AR gene (two
heterozygous variants needed) with two qualifying heterozygous
records. -/
theorem zygosity_flag_assignment_witness :
    geneGate panelAR rulesEx "GENE1" = some ⟨mkRat 1 100, 2, 1⟩ ∧
    ([vHet (mkRat 1 1000), vHet (mkRat 1 1000)]).filter (isSurvivor (some ⟨mkRat 1 100, 2, 1⟩)) ≠ [] ∧
    (∀ p ∈ ([vHet (mkRat 1 1000), vHet (mkRat 1 1000)]).zip
        (flagGroup panelAR rulesEx "GENE1" [vHet (mkRat 1 1000), vHet (mkRat 1 1000)]),
      isSurvivor (some ⟨mkRat 1 100, 2, 1⟩) p.1 = true →
        (if (⟨mkRat 1 100, 2, 1⟩ : Gate).HET ≤
              (([vHet (mkRat 1 1000), vHet (mkRat 1 1000)]).filter
                (isSurvivor (some ⟨mkRat 1 100, 2, 1⟩))).countP isHet ∨
            (⟨mkRat 1 100, 2, 1⟩ : Gate).HOM ≤
              (([vHet (mkRat 1 1000), vHet (mkRat 1 1000)]).filter
                (isSurvivor (some ⟨mkRat 1 100, 2, 1⟩))).countP isHom
         then p.2.flag = some Flag.PRIORITISED ∧ p.2.reason = p.1.reason
         else p.2.flag = some Flag.NOT_PRIORITISED ∧
           p.2.reason = some Reason.Zygosity_count_does_not_fit_MOI)) :=
  ⟨rfl, by decide,
    zygosity_flag_assignment panelAR rulesEx "GENE1" ⟨mkRat 1 100, 2, 1⟩
      [vHet (mkRat 1 1000), vHet (mkRat 1 1000)] rfl (by decide)⟩

/-- Claim C4 (counterexample): the genotype 0/2 has exactly one
non-reference allele index, so the claim classifies it heterozygous, but
the engine counts the allele index 1 only and classifies it as neither
heterozygous nor homozygous: a lone surviving 0/2 variant in an AD gene
needing one heterozygote ends NOT_PRIORITISED with the zygosity reason
instead of PRIORITISED. -/
theorem genotype_classification_counterexample :
    v02.GT.countP (fun a => decide (a ≠ none ∧ a ≠ some 0)) = 1 ∧
    isHet v02 = false ∧ isHom v02 = false ∧
    geneGate panelAD rulesEx "GENE2" = some ⟨mkRat 1 100, 1, 1⟩ ∧
    (flagGroup panelAD rulesEx "GENE2" [v02]).map Variant.flag =
      [some Flag.NOT_PRIORITISED] ∧
    (flagGroup panelAD rulesEx "GENE2" [v02]).map Variant.reason =
      [some Reason.Zygosity_count_does_not_fit_MOI] := by
  decide

/-- Claim C4 (witness): the amended theorem applied to the genotype
0/1. -/
theorem genotype_classification_witness :
    (vHet 0).GT = [some 0, some 1] ∧
    ((isHet (vHet 0) = true ↔
        ((some 0 = some 1 ∧ some 1 ≠ some 1) ∨
          (some 0 ≠ some 1 ∧ (some 1 : Option Nat) = some 1))) ∧
      (isHom (vHet 0) = true ↔ ((some 0 : Option Nat) = some 1 ∧
        (some 1 : Option Nat) = some 1)) ∧
      ¬ (isHet (vHet 0) = true ∧ isHom (vHet 0) = true)) :=
  ⟨rfl, genotype_classification (vHet 0) (some 0) (some 1) rfl⟩

/-- Claim C7 (witness): the theorem applied to a rule set with
hets_needed and homs_needed both zero and a group whose only record
fails the AF test. -/
theorem no_survivors_never_prioritised_witness :
    rulesZero "AD" = some ⟨some (mkRat 1 100), 0, 0⟩ ∧
    ([vHigh]).filter (isSurvivor (geneGate panelAD rulesZero "GENE2")) = [] ∧
    (groupDecision (geneGate panelAD rulesZero "GENE2") [vHigh] = none ∧
      ∀ v ∈ flagGroup panelAD rulesZero "GENE2" [vHigh],
        v.flag ≠ some Flag.PRIORITISED) :=
  ⟨rfl, by decide,
    no_survivors_never_prioritised panelAD rulesZero "GENE2" [vHigh] (by decide)⟩

/-- Claim C10 (witness): the theorem applied to a bcftools-excluded
record in a group whose gene is absent from the panel map. -/
theorem bcftools_filtered_short_circuit_witness :
    panelEmpty "GENE1" = none ∧
    vEx.filterStatus ≠ "PASS" ∧
    ((∀ dec, (assignFlag (geneGate panelEmpty rulesEx "GENE1") dec vEx).flag =
        some Flag.NOT_PRIORITISED ∧
      (assignFlag (geneGate panelEmpty rulesEx "GENE1") dec vEx).reason =
        some Reason.BCFtools_filtered) ∧
    isSurvivor (geneGate panelEmpty rulesEx "GENE1") vEx = false ∧
    groupDecision (geneGate panelEmpty rulesEx "GENE1") ([] ++ vEx :: [vHet 0]) =
      groupDecision (geneGate panelEmpty rulesEx "GENE1") ([] ++ [vHet 0]) ∧
    flagGroup panelEmpty rulesEx "GENE1" ([] ++ vEx :: [vHet 0]) =
      ([] ++ vEx :: [vHet 0]).map
        (assignFlag (geneGate panelEmpty rulesEx "GENE1")
          (groupDecision (geneGate panelEmpty rulesEx "GENE1") ([] ++ [vHet 0])))) :=
  ⟨rfl, by decide,
    bcftools_filtered_short_circuit panelEmpty rulesEx "GENE1" vEx [] [vHet 0]
      (by decide)⟩

/-! ### Panel resolver and indication-string claims -/

/-- Claim C6: the indication-string check strips standalone gene-identifier
tokens and accepts at most one remaining named panel: the two mixed
scenario strings resolve to the stated panel names, and a string with
two distinct named panels is rejected with an error naming both. -/
theorem check_panel_string_scenarios :
    check_panel_string "_HGNC:16627;R49.3_Beckwith-Wiedemann syndrome_G" =
      Except.ok "R49.3_Beckwith-Wiedemann syndrome_G" ∧
    check_panel_string "_HGNC:16627;_HGNC:795" = Except.ok "" ∧
    check_panel_string
        "R49.3_Beckwith-Wiedemann syndrome_G;R228.1_Tuberous sclerosis_G" =
      Except.error
        ("More than one panel given: " ++
          "R49.3_Beckwith-Wiedemann syndrome_G;R228.1_Tuberous sclerosis_G") :=
  ⟨rfl, rfl, rfl⟩

/-- Claim C5: for every gene or region of the input panel dictionary, the
MOI simplification stores exactly the normalisation the specification
table prescribes (`moiSpec`) of its raw MOI text. -/
theorem simplify_MOI_terms_lookup (l : List (String × Option String))
    (hnd : (l.map Prod.fst).Nodup) (g : String) (m : Option String)
    (hmem : (g, m) ∈ l) :
    (simplify_MOI_terms l).lookup g = some (moiSpec m) := by
  induction l with
  | nil => simp at hmem
  | cons p t ih =>
    rcases List.mem_cons.mp hmem with heq | hmem2
    · subst heq
      have : simplifyMOI m = moiSpec m := rfl
      simp [simplify_MOI_terms, List.lookup, this]
    · have hg : g ≠ p.1 := by
        intro e
        have hmemk : g ∈ t.map Prod.fst := List.mem_map.mpr ⟨(g, m), hmem2, rfl⟩
        exact (List.nodup_cons.mp hnd).1 (e ▸ hmemk)
      have hbeq : (g == p.1) = false := beq_eq_false_iff_ne.mpr hg
      simp only [simplify_MOI_terms, List.map_cons, List.lookup, hbeq]
      exact ih (List.nodup_cons.mp hnd).2 hmem2

/-- Claim C5 (witness): the lookup theorem applied to a one-entry panel
dictionary with a raw monoallelic MOI text, which simplifies to AD. -/
theorem simplify_MOI_terms_lookup_witness :
    ((([("BMP4",
        some "MONOALLELIC, autosomal or pseudoautosomal, imprinted status unknown")] :
        List (String × Option String)).map Prod.fst).Nodup) ∧
    (("BMP4",
        some "MONOALLELIC, autosomal or pseudoautosomal, imprinted status unknown") ∈
      ([("BMP4",
        some "MONOALLELIC, autosomal or pseudoautosomal, imprinted status unknown")] :
        List (String × Option String))) ∧
    (simplify_MOI_terms
        [("BMP4",
          some "MONOALLELIC, autosomal or pseudoautosomal, imprinted status unknown")]).lookup
        "BMP4" =
      some (moiSpec
        (some "MONOALLELIC, autosomal or pseudoautosomal, imprinted status unknown")) :=
  ⟨by simp, by simp,
    simplify_MOI_terms_lookup
      [("BMP4",
        some "MONOALLELIC, autosomal or pseudoautosomal, imprinted status unknown")]
      (by simp) "BMP4"
      (some "MONOALLELIC, autosomal or pseudoautosomal, imprinted status unknown")
      (by simp)⟩

/-! ### Genepanels table parsing (claim C9) -/

theorem mem_insertVal (vs : List String) (v w : String) :
    w ∈ insertVal vs v ↔ w ∈ vs ∨ w = v := by
  unfold insertVal
  split
  · rename_i hin
    constructor
    · exact Or.inl
    · rintro (h | rfl)
      · exact h
      · exact hin
  · simp

theorem nodup_insertVal (vs : List String) (v : String) (h : vs.Nodup) :
    (insertVal vs v).Nodup := by
  unfold insertVal
  split
  · exact h
  · rename_i hnin
    rw [List.nodup_append]
    refine ⟨h, List.nodup_singleton v, ?_⟩
    intro a ha hav
    rw [List.mem_singleton] at hav
    exact hnin (hav ▸ ha)

theorem insertVal_ne_nil (vs : List String) (v : String) :
    insertVal vs v ≠ [] := by
  unfold insertVal
  split
  · rename_i hin
    intro he
    rw [he] at hin
    simp at hin
  · simp

theorem getVals_addPanelId (acc : List (String × List String)) (k v k0 : String) :
    getVals (addPanelId acc k v) k0 =
      if k0 = k then insertVal (getVals acc k0) v else getVals acc k0 := by
  induction acc with
  | nil =>
    by_cases h : k0 = k
    · subst h
      simp [addPanelId, getVals, insertVal]
    · have h' : ¬ k = k0 := fun e => h e.symm
      simp [addPanelId, getVals, h, h']
  | cons p t ih =>
    obtain ⟨k1, vs⟩ := p
    by_cases h1 : k1 = k
    · subst h1
      by_cases h0 : k1 = k0
      · subst h0
        simp [addPanelId, getVals]
      · have h0' : ¬ k0 = k1 := fun e => h0 e.symm
        simp [addPanelId, getVals, h0, h0']
    · by_cases h0 : k1 = k0
      · subst h0
        have h1' : ¬ k1 = k := h1
        simp [addPanelId, getVals, h1']
      · have h0' : ¬ k0 = k1 := fun e => h0 e.symm
        simp [addPanelId, getVals, h1, h0, h0', ih]

theorem addPanelId_inv (P : String → String → Prop)
    (acc : List (String × List String)) (k v : String)
    (hacc : ∀ p ∈ acc, p.2.Nodup ∧ ∀ w ∈ p.2, P p.1 w) (hkv : P k v) :
    ∀ p ∈ addPanelId acc k v, p.2.Nodup ∧ ∀ w ∈ p.2, P p.1 w := by
  induction acc with
  | nil =>
    intro p hp
    simp only [addPanelId, List.mem_singleton] at hp
    subst hp
    exact ⟨List.nodup_singleton v, by simpa using hkv⟩
  | cons q t ih =>
    obtain ⟨k1, vs⟩ := q
    intro p hp
    simp only [addPanelId] at hp
    split at hp
    · rename_i h1
      rcases List.mem_cons.mp hp with rfl | hp2
      · obtain ⟨hnd, hP⟩ := hacc (k1, vs) (by simp)
        refine ⟨nodup_insertVal _ _ hnd, ?_⟩
        intro w hw
        rcases (mem_insertVal vs v w).mp hw with hw2 | rfl
        · exact hP w hw2
        · exact h1 ▸ hkv
      · exact hacc p (List.mem_cons_of_mem _ hp2)
    · rcases List.mem_cons.mp hp with rfl | hp2
      · exact hacc (k1, vs) (by simp)
      · exact ih (fun q hq => hacc q (List.mem_cons_of_mem _ hq)) p hp2

theorem buildPanelData_inv (P : String → String → Prop) (rows : List GenepanelsRow)
    (hrows : ∀ r ∈ rows, P r.clin_ind (stripNewline r.panel_id)) :
    ∀ p ∈ buildPanelData rows, p.2.Nodup ∧ ∀ w ∈ p.2, P p.1 w := by
  unfold buildPanelData
  suffices hgen : ∀ (rows2 : List GenepanelsRow) (acc : List (String × List String)),
      (∀ p ∈ acc, p.2.Nodup ∧ ∀ w ∈ p.2, P p.1 w) →
      (∀ r ∈ rows2, P r.clin_ind (stripNewline r.panel_id)) →
      ∀ p ∈ rows2.foldl
        (fun acc r => addPanelId acc r.clin_ind (stripNewline r.panel_id)) acc,
        p.2.Nodup ∧ ∀ w ∈ p.2, P p.1 w by
    exact hgen rows [] (by simp) hrows
  intro rows2
  induction rows2 with
  | nil => intro acc hacc _ ; exact hacc
  | cons r t ih =>
    intro acc hacc hrows2
    simp only [List.foldl_cons]
    exact ih _ (addPanelId_inv P acc _ _ hacc (hrows2 r (by simp)))
      (fun r2 hr2 => hrows2 r2 (List.mem_cons_of_mem _ hr2))

theorem getVals_buildPanelData (rows : List GenepanelsRow) (k : String) :
    getVals (buildPanelData rows) k =
      rows.foldl
        (fun vs r =>
          if k = r.clin_ind then insertVal vs (stripNewline r.panel_id) else vs)
        [] := by
  unfold buildPanelData
  suffices hgen : ∀ (rows2 : List GenepanelsRow) (acc : List (String × List String)),
      getVals (rows2.foldl
        (fun acc r => addPanelId acc r.clin_ind (stripNewline r.panel_id)) acc) k =
      rows2.foldl
        (fun vs r =>
          if k = r.clin_ind then insertVal vs (stripNewline r.panel_id) else vs)
        (getVals acc k) by
    simpa [getVals] using hgen rows []
  intro rows2
  induction rows2 with
  | nil => intro acc; rfl
  | cons r t ih =>
    intro acc
    simp only [List.foldl_cons]
    rw [ih, getVals_addPanelId]

theorem mem_valsFold (rows : List GenepanelsRow) (init : List String) (k v : String) :
    v ∈ rows.foldl
        (fun vs r =>
          if k = r.clin_ind then insertVal vs (stripNewline r.panel_id) else vs)
        init ↔
      v ∈ init ∨ ∃ r ∈ rows, r.clin_ind = k ∧ stripNewline r.panel_id = v := by
  induction rows generalizing init with
  | nil => simp
  | cons r t ih =>
    simp only [List.foldl_cons]
    rw [ih]
    by_cases h : k = r.clin_ind
    · rw [if_pos h, mem_insertVal]
      subst h
      simp only [List.mem_cons]
      constructor
      · rintro ((hv | rfl) | ⟨r2, hr2, hk2, hv2⟩)
        · exact Or.inl hv
        · exact Or.inr ⟨r, Or.inl rfl, rfl, rfl⟩
        · exact Or.inr ⟨r2, Or.inr hr2, hk2, hv2⟩
      · rintro (hv | ⟨r2, (rfl | hr2), hk2, hv2⟩)
        · exact Or.inl (Or.inl hv)
        · exact Or.inl (Or.inr hv2.symm)
        · exact Or.inr ⟨r2, hr2, hk2, hv2⟩
    · rw [if_neg h]
      simp only [List.mem_cons]
      constructor
      · rintro (hv | ⟨r2, hr2, hk2, hv2⟩)
        · exact Or.inl hv
        · exact Or.inr ⟨r2, Or.inr hr2, hk2, hv2⟩
      · rintro (hv | ⟨r2, (rfl | hr2), hk2, hv2⟩)
        · exact Or.inl hv
        · exact absurd hk2.symm h
        · exact Or.inr ⟨r2, hr2, hk2, hv2⟩

theorem getVals_mem (pd : List (String × List String)) (k : String)
    (h : getVals pd k ≠ []) : (k, getVals pd k) ∈ pd := by
  induction pd with
  | nil => simp [getVals] at h
  | cons p t ih =>
    obtain ⟨k1, vs⟩ := p
    by_cases h1 : k1 = k
    · subst h1
      simp [getVals]
    · rw [getVals, if_neg h1] at h ⊢
      exact List.mem_cons_of_mem _ (ih h)

theorem exists_two_of_one_lt_length (vs : List String) (h : 1 < vs.length)
    (hnd : vs.Nodup) : ∃ a ∈ vs, ∃ b ∈ vs, a ≠ b := by
  match vs with
  | [] => simp at h
  | [a] => simp at h
  | a :: b :: t =>
    refine ⟨a, by simp, b, by simp, ?_⟩
    intro e
    subst e
    simp [List.nodup_cons] at hnd

theorem one_lt_length_of_two_mem (vs : List String) (a b : String)
    (ha : a ∈ vs) (hb : b ∈ vs) (hab : a ≠ b) : 1 < vs.length := by
  match vs with
  | [] => simp at ha
  | [x] =>
    rw [List.mem_singleton] at ha hb
    exact absurd (ha.trans hb.symm) hab
  | x :: y :: t => simp only [List.length_cons]; omega

/-- Claim C9: parsing the genepanels table fails with the data-integrity
assertion exactly when some clinical indication appears in two rows
whose (newline-stripped) panel IDs differ; every table in which each
indication carries at most one distinct ID (the empty-string placeholder
included) parses successfully. -/
theorem parse_genepanels_error_iff (rows : List GenepanelsRow) :
    (∃ e, parse_genepanels rows = Except.error e) ↔
      ∃ r1 ∈ rows, ∃ r2 ∈ rows, r1.clin_ind = r2.clin_ind ∧
        stripNewline r1.panel_id ≠ stripNewline r2.panel_id := by
  constructor
  · rintro ⟨e, he⟩
    by_cases hemp : ((buildPanelData rows).filter (fun p => 1 < p.2.length)).isEmpty
    · exfalso
      unfold parse_genepanels at he
      rw [if_pos hemp] at he
      exact Except.noConfusion he
    · have hne : (buildPanelData rows).filter (fun p => 1 < p.2.length) ≠ [] := by
        simpa [List.isEmpty_iff] using hemp
      obtain ⟨p, hpf⟩ := List.exists_mem_of_ne_nil _ hne
      have hp := List.mem_filter.mp hpf
      obtain ⟨hnd, horig⟩ :=
        buildPanelData_inv
          (fun k v => ∃ r ∈ rows, r.clin_ind = k ∧ stripNewline r.panel_id = v)
          rows (fun r hr => ⟨r, hr, rfl, rfl⟩) p hp.1
      obtain ⟨a, ha, b, hb, hab⟩ :=
        exists_two_of_one_lt_length p.2 (by simpa using hp.2) hnd
      obtain ⟨r1, hr1, hk1, hv1⟩ := horig a ha
      obtain ⟨r2, hr2, hk2, hv2⟩ := horig b hb
      exact ⟨r1, hr1, r2, hr2, hk1.trans hk2.symm, by rw [hv1, hv2]; exact hab⟩
  · rintro ⟨r1, hr1, r2, hr2, hkk, hvv⟩
    have h1 : stripNewline r1.panel_id ∈ getVals (buildPanelData rows) r1.clin_ind := by
      rw [getVals_buildPanelData]
      exact (mem_valsFold rows [] _ _).mpr (Or.inr ⟨r1, hr1, rfl, rfl⟩)
    have h2 : stripNewline r2.panel_id ∈ getVals (buildPanelData rows) r1.clin_ind := by
      rw [getVals_buildPanelData]
      exact (mem_valsFold rows [] _ _).mpr (Or.inr ⟨r2, hr2, hkk.symm, rfl⟩)
    have hlen : 1 < (getVals (buildPanelData rows) r1.clin_ind).length :=
      one_lt_length_of_two_mem _ _ _ h1 h2 hvv
    have hval : (r1.clin_ind, getVals (buildPanelData rows) r1.clin_ind) ∈
        buildPanelData rows := by
      apply getVals_mem
      intro h0
      rw [h0] at hlen
      simp at hlen
    have hne : (buildPanelData rows).filter (fun p => 1 < p.2.length) ≠ [] := by
      intro h0
      have := List.filter_eq_nil_iff.mp h0 _ hval
      simp [hlen] at this
    refine ⟨"Multiple panel IDs found for clinical indications", ?_⟩
    unfold parse_genepanels
    rw [if_neg (by simpa [List.isEmpty_iff] using hne)]

end OptimisedFiltering
